import Mathlib

/-!
Shallow embedding of the FPClock daemon (src/fpclock.c) and proofs about
its drift-estimation and synchronization logic.

The global mutable state `drift_data[10]` / `drift_index` is modelled as a
`DriftState`.  Hardware reads, the system clock, the persisted drift file
and the result of `adjtime` are passed in explicitly as parameters; log
output is modelled as a list of `LogEvent`s, and clock-changing syscalls as
a `SyncDecision` value.
-/

namespace FPClock

/-- State of the drift window: the `drift_data` array (10 slots) together
with the write position `drift_index`. -/
structure DriftState where
  data : List Int
  index : Nat
deriving DecidableEq

/-- Initial state: `main` fills all ten slots with `-1`; `drift_index`
starts at `0` (C static initialization). -/
def initState : DriftState := ⟨List.replicate 10 (-1), 0⟩

/-- Embedding of `add_drift` (fpclock.c lines 108-117): ignore a zero
sample, otherwise store at `drift_index` and advance it, wrapping past 9. -/
def add_drift (drift : Int) (s : DriftState) : DriftState :=
  if drift ≠ 0 then
    { data := s.data.set s.index drift
      index := if s.index + 1 > 9 then 0 else s.index + 1 }
  else s

/-- The window contents read circularly starting at the write index
(oldest slot first).  Used to state the FIFO property of `add_drift`. -/
def readout (s : DriftState) : List Int :=
  (List.range 10).map fun k => s.data.getD ((s.index + k) % 10) 0

/-- Embedding of `calc_drift` (fpclock.c lines 128-133): sort the ten
slots ascending (`qsort` with `cmpfunc`), average the elements at indices
`(9)/2` and `5`, divide by `delay`.  Real arithmetic is modelled over `ℚ`. -/
def calc_drift (s : DriftState) (delay : ℚ) : ℚ :=
  let d := List.insertionSort (· ≤ ·) s.data
  (((d.getD (9 / 2) 0 + d.getD 5 0 : ℤ) : ℚ) / 2) / delay

/-- C cast of a `double` to `int`: truncation toward zero. -/
def cTrunc (q : ℚ) : Int := if q < 0 then ⌈q⌉ else ⌊q⌋

/-- Embedding of `get_drift_seconds` (fpclock.c lines 138-168).  The
persisted drift file is modelled as `Option (Int × ℚ)`: `none` stands for
a missing or malformed file (the code then uses `lastsave = 0`,
`drift = 0`, hence returns 0, so folding both into `none` is faithful). -/
def get_drift_seconds (record : Option (Int × ℚ)) (rtctime : Int) : Int :=
  match record with
  | none => 0
  | some (lastsave, drift) =>
    if drift ≠ 0 ∧ lastsave ≠ 0 then cTrunc (((rtctime - lastsave : ℤ) : ℚ) * drift)
    else 0

/-- Outcome of the `adjtime` call in `sync_fp`: success, failure with
`errno = EINVAL`, or failure with any other `errno`. -/
inductive AdjtimeResult
  | ok
  | einval
  | err
deriving DecidableEq

/-- Effect of one synchronization on the system clock: untouched, slewed
by `delta` seconds via `adjtime`, or stepped via `settimeofday` to the
absolute epoch `target`. -/
inductive SyncDecision
  | NoOp
  | Slew (delta : Int)
  | Step (target : Int)
deriving DecidableEq

/-- Log messages emitted by `sync_fp`. -/
inductive LogEvent
  | slewingBy (d : Int)
  | slewFailed (d : Int)
  | syncFailed
deriving DecidableEq

/-- The adjustment block of `sync_fp` (fpclock.c lines 545-570): nothing
happens within the 30-second tolerance band; otherwise `adjtime` is tried;
on `EINVAL` the code calls `settimeofday` with `tv_sec = time_difference`
(stepping the clock to that absolute epoch) while logging the same
"Slewing" message; on any other error it only logs the failure. -/
def sync_decide (time_difference : Int) (adj : AdjtimeResult) : SyncDecision × List LogEvent :=
  if time_difference.natAbs > 30 then
    match adj with
    | .ok => (.Slew time_difference, [.slewingBy time_difference])
    | .einval => (.Step time_difference, [.slewingBy time_difference])
    | .err => (.NoOp, [.slewFailed time_difference])
  else (.NoOp, [])

/-- Embedding of `sync_fp` (fpclock.c lines 532-578).  `rtc_time` is the
value returned by `getRTC` (0 on failure), `system_time` is `time(0)`,
`record` the persisted drift file, `adj` the behaviour of `adjtime`. -/
def sync_fp (record : Option (Int × ℚ)) (rtc_time system_time : Int)
    (cmdline : Bool) (adj : AdjtimeResult) : SyncDecision × List LogEvent :=
  if rtc_time ≠ 0 then
    sync_decide
      ((if ¬cmdline then rtc_time + get_drift_seconds record rtc_time else rtc_time) -
        system_time) adj
  else (.NoOp, [.syncFailed])

/-- The startup synchronization: `main` (fpclock.c line 726) calls
`sync_fp(0)` once before entering the periodic loop. -/
def initial_sync (record : Option (Int × ℚ)) (rtc_time system_time : Int)
    (adj : AdjtimeResult) : SyncDecision × List LogEvent :=
  sync_fp record rtc_time system_time false adj

/-- Hardware-clock operations performed by the accessor, in order. -/
inductive HWOp
  | read
  | write (v : Int)
deriving DecidableEq

/-- Embedding of `setRTC` (fpclock.c lines 219-260).  `hw` is the reading
`getRTC` would return at call time.  Returns the new drift window together
with the ordered list of hardware operations performed. -/
def setRTC (t : Int) (saveDrift : Bool) (hw : Int) (s : DriftState) :
    DriftState × List HWOp :=
  if saveDrift then
    let drift := hw - t
    ((if drift ≠ 0 then add_drift drift s else s), [.read, .write t])
  else (s, [.write t])

/-- Embedding of `write_fp` (fpclock.c lines 508-527).  `now` is `time(0)`.
Returns the new state, the hardware operations, and the C return value. -/
def write_fp (c : Int) (now : Int) (hw : Int) (s : DriftState) :
    (DriftState × List HWOp) × Int :=
  if c ≠ -1 then
    if c < 1672527600 then ((s, []), 1)
    else (setRTC c false hw s, 0)
  else (setRTC now true hw s, 0)

/-! Helper lemmas about the drift window. -/

theorem readout_length (s : DriftState) : (readout s).length = 10 := by
  simp [readout]

theorem list_len_ten (l : List Int) (h : l.length = 10) :
    ∃ a b c d e f g h0 i j : Int, l = [a, b, c, d, e, f, g, h0, i, j] := by
  rcases l with - | ⟨a, l⟩; · simp at h
  rcases l with - | ⟨b, l⟩; · simp at h
  rcases l with - | ⟨c, l⟩; · simp at h
  rcases l with - | ⟨d, l⟩; · simp at h
  rcases l with - | ⟨e, l⟩; · simp at h
  rcases l with - | ⟨f, l⟩; · simp at h
  rcases l with - | ⟨g, l⟩; · simp at h
  rcases l with - | ⟨h0, l⟩; · simp at h
  rcases l with - | ⟨i, l⟩; · simp at h
  rcases l with - | ⟨j, l⟩; · simp at h
  rcases l with - | ⟨k, l⟩
  · exact ⟨a, b, c, d, e, f, g, h0, i, j, rfl⟩
  · simp at h

theorem readout_add_drift (x : Int) (s : DriftState) (hx : x ≠ 0)
    (hlen : s.data.length = 10) (hidx : s.index < 10) :
    readout (add_drift x s) = (readout s).drop 1 ++ [x] := by
  rcases s with ⟨data, idx⟩
  simp only at hlen hidx
  obtain ⟨a, b, c, d, e, f, g, h0, i, j, rfl⟩ := list_len_ten data hlen
  interval_cases idx <;> simp [add_drift, hx, readout] <;> rfl

theorem add_drift_length (x : Int) (s : DriftState) :
    (add_drift x s).data.length = s.data.length := by
  unfold add_drift; split <;> simp

theorem add_drift_index (x : Int) (s : DriftState) (hx : x ≠ 0) (hidx : s.index < 10) :
    (add_drift x s).index = (s.index + 1) % 10 := by
  simp only [add_drift, if_pos hx, ne_eq]
  split <;> omega

theorem foldl_add_drift (l : List Int) : ∀ (s : DriftState),
    s.data.length = 10 → s.index < 10 → (∀ x ∈ l, x ≠ 0) →
    readout (List.foldl (fun acc x => add_drift x acc) s l) = (readout s ++ l).drop l.length ∧
    (List.foldl (fun acc x => add_drift x acc) s l).index = (s.index + l.length) % 10 ∧
    (List.foldl (fun acc x => add_drift x acc) s l).data.length = 10 ∧
    (List.foldl (fun acc x => add_drift x acc) s l).index < 10 := by
  induction l with
  | nil =>
    intro s h1 h2 h3
    exact ⟨by simp, by simp [Nat.mod_eq_of_lt h2], h1, h2⟩
  | cons x xs ih =>
    intro s h1 h2 h3
    have hx : x ≠ 0 := h3 x (by simp)
    have hlen : (add_drift x s).data.length = 10 := by rw [add_drift_length]; exact h1
    have hidx10 : (add_drift x s).index < 10 := by
      rw [add_drift_index x s hx h2]; exact Nat.mod_lt _ (by omega)
    obtain ⟨r1, r2, r3, r4⟩ := ih (add_drift x s) hlen hidx10 (fun y hy => h3 y (by simp [hy]))
    rw [List.foldl_cons]
    refine ⟨?_, ?_, r3, r4⟩
    · rw [r1, readout_add_drift x s hx h1 h2]
      have h10 : (readout s).length = 10 := readout_length s
      rcases hr : readout s with - | ⟨y, tl⟩
      · rw [hr] at h10; simp at h10
      · simp [List.drop_succ_cons, List.append_assoc]
    · rw [r2, add_drift_index x s hx h2]
      simp only [List.length_cons]
      omega

/-! Theorems settling the specification claims. -/

/-- Claim C4: for any sequence of nonzero samples recorded from the initial
window, the circular readout (oldest slot first) consists of the still
unfilled `-1` sentinels followed by the last `min(N, 10)` samples in FIFO
order, and the write index is `N` modulo 10: the window never holds more
than 10 entries, it holds exactly `min(N, 10)` recorded ones, and once
`N > 10` each new sample has overwritten the oldest. -/
theorem add_drift_fifo (l : List Int) (hl : ∀ x ∈ l, x ≠ 0) :
    readout (List.foldl (fun acc x => add_drift x acc) initState l) =
      List.replicate (10 - l.length) (-1) ++ l.drop (l.length - 10) ∧
    (List.foldl (fun acc x => add_drift x acc) initState l).index = l.length % 10 := by
  obtain ⟨r1, r2, -, -⟩ :=
    foldl_add_drift l initState (by simp [initState]) (by simp [initState]) hl
  refine ⟨?_, by simpa [initState] using r2⟩
  rw [r1]
  have h0 : readout initState = List.replicate 10 (-1) := by rfl
  rw [h0, List.drop_append_eq_append_drop, List.drop_replicate]
  simp

/-- Witness for C4: twelve nonzero samples leave exactly the last ten in
the window, in order, and the write index at `12 % 10 = 2`. -/
theorem add_drift_fifo_witness :
    (∀ x ∈ ([1, 2, 3, 4, 5, 6, 7, 8, 9, 10, 11, 12] : List Int), x ≠ 0) ∧
    (readout (List.foldl (fun acc x => add_drift x acc) initState
        [1, 2, 3, 4, 5, 6, 7, 8, 9, 10, 11, 12]) =
      List.replicate (10 - ([1, 2, 3, 4, 5, 6, 7, 8, 9, 10, 11, 12] : List Int).length) (-1) ++
        ([1, 2, 3, 4, 5, 6, 7, 8, 9, 10, 11, 12] : List Int).drop
          (([1, 2, 3, 4, 5, 6, 7, 8, 9, 10, 11, 12] : List Int).length - 10) ∧
      (List.foldl (fun acc x => add_drift x acc) initState
          [1, 2, 3, 4, 5, 6, 7, 8, 9, 10, 11, 12]).index =
        ([1, 2, 3, 4, 5, 6, 7, 8, 9, 10, 11, 12] : List Int).length % 10) :=
  ⟨by decide, add_drift_fifo [1, 2, 3, 4, 5, 6, 7, 8, 9, 10, 11, 12] (by decide)⟩

/-- Claim C9: recording a zero sample changes neither the window slots nor
the write index, whatever the current state. -/
theorem add_drift_zero_frame (s : DriftState) : add_drift 0 s = s := by
  simp [add_drift]

/-- Claim C3: `calc_drift` sorts the full 10-slot window ascending and
returns the mean of the elements at sorted positions 4 and 5 (0-indexed)
divided by `delay` — stated against any ascending sorted permutation of
the window, so the result depends only on the sorted order.  The second
conjunct shows the `-1` fill sentinels participate: after only three real
samples both middle positions still hold `-1`, giving `-1/1800`. -/
theorem calc_drift_median_spec :
    (∀ (s : DriftState) (delay : ℚ) (w : List Int), w.Perm s.data → w.Sorted (· ≤ ·) →
      calc_drift s delay = ((((w.getD 4 0 + w.getD 5 0 : ℤ) : ℚ) / 2) / delay)) ∧
    calc_drift (add_drift 8 (add_drift (-3) (add_drift 5 initState))) 1800 = -1 / 1800 := by
  constructor
  · intro s delay w hp hs
    have he : w = List.insertionSort (· ≤ ·) s.data :=
      List.eq_of_perm_of_sorted (hp.trans (List.perm_insertionSort (· ≤ ·) s.data).symm) hs
        (List.sorted_insertionSort (· ≤ ·) s.data)
    simp only [calc_drift, ← he]
  · norm_num [calc_drift, add_drift, initState, List.insertionSort, List.orderedInsert]

/-- Witness for C3: evaluation at the window holding samples 5, -3, 8 and
seven `-1` sentinels, with its explicit ascending sort. -/
theorem calc_drift_median_spec_witness :
    (([-3, -1, -1, -1, -1, -1, -1, -1, 5, 8] : List Int).Perm
        (add_drift 8 (add_drift (-3) (add_drift 5 initState))).data ∧
      ([-3, -1, -1, -1, -1, -1, -1, -1, 5, 8] : List Int).Sorted (· ≤ ·)) ∧
    calc_drift (add_drift 8 (add_drift (-3) (add_drift 5 initState))) 1800 =
      ((((([-3, -1, -1, -1, -1, -1, -1, -1, 5, 8] : List Int).getD 4 0 +
          ([-3, -1, -1, -1, -1, -1, -1, -1, 5, 8] : List Int).getD 5 0 : ℤ) : ℚ) / 2) / 1800) :=
  ⟨⟨by decide, by decide⟩,
    calc_drift_median_spec.1 (add_drift 8 (add_drift (-3) (add_drift 5 initState))) 1800
      [-3, -1, -1, -1, -1, -1, -1, -1, 5, 8] (by decide) (by decide)⟩

/-- Claim C5: `get_drift_seconds` returns
`(rtctime - lastsave) * drift` truncated to an integer when both fields of
the persisted record are non-zero, and `0` when either field is zero or
the record is missing or malformed; for record `(1000, 0.01)` and current
hardware epoch `2000` it returns `10`. -/
theorem get_drift_seconds_spec :
    (∀ (lastsave : Int) (drift : ℚ) (rtctime : Int), drift ≠ 0 → lastsave ≠ 0 →
      get_drift_seconds (some (lastsave, drift)) rtctime =
        cTrunc (((rtctime - lastsave : ℤ) : ℚ) * drift)) ∧
    (∀ (lastsave : Int) (drift : ℚ) (rtctime : Int), drift = 0 ∨ lastsave = 0 →
      get_drift_seconds (some (lastsave, drift)) rtctime = 0) ∧
    (∀ rtctime : Int, get_drift_seconds none rtctime = 0) ∧
    get_drift_seconds (some (1000, 1 / 100)) 2000 = 10 := by
  refine ⟨?_, ?_, fun _ => rfl, ?_⟩
  · intro ls dr rt h1 h2
    simp [get_drift_seconds, h1, h2]
  · intro ls dr rt h
    rcases h with h | h <;> simp [get_drift_seconds, h]
  · norm_num [get_drift_seconds, cTrunc]

/-- Witness for C5: record `(500, 1/50)` at hardware epoch `1500`. -/
theorem get_drift_seconds_spec_witness :
    ((1 : ℚ) / 50 ≠ 0 ∧ (500 : Int) ≠ 0) ∧
    get_drift_seconds (some (500, 1 / 50)) 1500 = cTrunc (((1500 - 500 : ℤ) : ℚ) * (1 / 50)) :=
  ⟨⟨by norm_num, by norm_num⟩,
    get_drift_seconds_spec.1 500 (1 / 50) 1500 (by norm_num) (by norm_num)⟩

/-- Claim C2: with `delta` the (possibly drift-extrapolated) hardware time
minus the system time and a successful hardware read, `sync_fp` makes no
adjustment when `abs delta ≤ 30`, and slews by `31` resp. `-31` when
`delta` is `31` resp. `-31` and `adjtime` accepts. -/
theorem sync_fp_tolerance_band (record : Option (Int × ℚ)) (rtc sys : Int)
    (cmdline : Bool) (adj : AdjtimeResult) (hrtc : rtc ≠ 0) :
    (((if ¬cmdline then rtc + get_drift_seconds record rtc else rtc) - sys).natAbs ≤ 30 →
      sync_fp record rtc sys cmdline adj = (.NoOp, [])) ∧
    ((if ¬cmdline then rtc + get_drift_seconds record rtc else rtc) - sys = 31 → adj = .ok →
      sync_fp record rtc sys cmdline adj = (.Slew 31, [.slewingBy 31])) ∧
    ((if ¬cmdline then rtc + get_drift_seconds record rtc else rtc) - sys = -31 → adj = .ok →
      sync_fp record rtc sys cmdline adj = (.Slew (-31), [.slewingBy (-31)])) := by
  unfold sync_fp
  rw [if_pos hrtc]
  refine ⟨?_, ?_, ?_⟩
  · intro h
    unfold sync_decide
    rw [if_neg (by omega)]
  · intro hD hadj
    subst hadj
    rw [hD]
    simp [sync_decide]
  · intro hD hadj
    subst hadj
    rw [hD]
    simp [sync_decide]

/-- Witness for C2: a command-line sync at `delta = 30` does nothing and
at `delta = 31` slews by 31 seconds. -/
theorem sync_fp_tolerance_band_witness :
    ((100 : Int) ≠ 0 ∧
      ((if ¬true then (100 : Int) + get_drift_seconds none 100 else 100) - 70).natAbs ≤ 30 ∧
      sync_fp none 100 70 true .ok = (.NoOp, [])) ∧
    ((if ¬true then (100 : Int) + get_drift_seconds none 100 else 100) - 69 = 31 ∧
      sync_fp none 100 69 true .ok = (.Slew 31, [.slewingBy 31])) :=
  ⟨⟨by decide, by decide,
      (sync_fp_tolerance_band none 100 70 true .ok (by decide)).1 (by decide)⟩,
    ⟨by decide,
      (sync_fp_tolerance_band none 100 69 true .ok (by decide)).2.1 (by decide) rfl⟩⟩

/-- Claim C1 (code bug): when `adjtime` rejects the slew with `EINVAL` the
code does step rather than no-op, but it calls `settimeofday` with
`tv_sec = time_difference`, stepping the system clock to the delta taken
as an absolute epoch instead of to the hardware time `hw`: at hardware
time 1700000000 and system time 1700000100 the clock is stepped to epoch
`-100`, not to `1700000000`, even though the accompanying log line claims
a slew by `-100` seconds (which would end at `hw`). -/
theorem sync_fp_einval_steps_to_delta :
    sync_fp none 1700000000 1700000100 true .einval =
      (.Step (-100), [.slewingBy (-100)]) ∧
    SyncDecision.Step (-100) ≠ SyncDecision.Step 1700000000 :=
  ⟨by decide, by decide⟩

/-- Claim C7: whenever `getRTC` fails or reads the unknown sentinel 0,
`sync_fp` leaves the system clock untouched (decision `NoOp`, no slew and
no step) and logs the sync failure. -/
theorem sync_fp_read_failure_noop (record : Option (Int × ℚ)) (sys : Int)
    (cmdline : Bool) (adj : AdjtimeResult) :
    sync_fp record 0 sys cmdline adj = (.NoOp, [.syncFailed]) := by
  simp [sync_fp]

/-- Counterexample to claim C6: the startup sync (`sync_fp(0)` from
`main`) does NOT compare the raw hardware reading: with persisted record
`(1000, 1)` and hardware time equal to system time 2000 it slews by the
extrapolated 1000 seconds, while the raw comparison (the `cmdline = 1`
path) is a no-op. -/
theorem initial_sync_extrapolation_cex :
    initial_sync (some (1000, 1)) 2000 2000 .ok = (.Slew 1000, [.slewingBy 1000]) ∧
    sync_fp (some (1000, 1)) 2000 2000 true .ok = (.NoOp, []) ∧
    (SyncDecision.Slew 1000, [LogEvent.slewingBy 1000]) ≠
      ((SyncDecision.NoOp, []) : SyncDecision × List LogEvent) := by
  refine ⟨?_, by decide, by decide⟩
  norm_num [initial_sync, sync_fp, sync_decide, get_drift_seconds, cTrunc]

/-- Claim C6 as amended: the startup synchronization applies the persisted
drift extrapolation (it compares `rtc + get_drift_seconds record rtc`
against the system time); only the explicit command-line restore path
(`sync_fp(1)`) compares the raw hardware reading. -/
theorem initial_sync_extrapolates (record : Option (Int × ℚ)) (rtc sys : Int)
    (adj : AdjtimeResult) (hrtc : rtc ≠ 0) :
    initial_sync record rtc sys adj =
      sync_decide (rtc + get_drift_seconds record rtc - sys) adj ∧
    sync_fp record rtc sys true adj = sync_decide (rtc - sys) adj := by
  constructor <;> simp [initial_sync, sync_fp, hrtc]

/-- Witness for amended C6: concrete startup sync with record `(1000, 1)`. -/
theorem initial_sync_extrapolates_witness :
    (2000 : Int) ≠ 0 ∧
    (initial_sync (some (1000, 1)) 2000 500 .ok =
        sync_decide (2000 + get_drift_seconds (some (1000, 1)) 2000 - 500) .ok ∧
      sync_fp (some (1000, 1)) 2000 500 true .ok = sync_decide (2000 - 500) .ok) :=
  ⟨by decide, initial_sync_extrapolates (some (1000, 1)) 2000 500 .ok (by decide)⟩

/-- Claim C8: `setRTC` with drift sampling requested first reads the
hardware clock, records `observed_old_reading - epoch` in the drift
window, and only then writes `epoch` to the hardware: the resulting window
is `add_drift (hw - t)` of the old window, and the operation trace is the
read followed by the write of `t`. -/
theorem setRTC_samples_drift_before_write (t hw : Int) (s : DriftState) :
    setRTC t true hw s = (add_drift (hw - t) s, [HWOp.read, HWOp.write t]) := by
  by_cases h : hw - t = 0
  · simp [setRTC, h, add_drift]
  · simp [setRTC, h]

/-- Claim C10: a forced epoch (`c ≠ -1`) below 1672527600 is rejected —
`write_fp` returns 1 and performs no hardware operation — while an epoch
at or above the floor is written to the hardware without drift sampling
and `write_fp` returns 0. -/
theorem write_fp_epoch_floor (c now hw : Int) (s : DriftState) (hc : c ≠ -1) :
    (c < 1672527600 → write_fp c now hw s = ((s, []), 1)) ∧
    (1672527600 ≤ c → write_fp c now hw s = ((s, [HWOp.write c]), 0)) := by
  constructor
  · intro h
    simp [write_fp, hc, h]
  · intro h
    have h2 : ¬(c < 1672527600) := not_lt.mpr h
    simp [write_fp, hc, h2, setRTC]

/-- Witness for C10: epoch 1000000000 (2001) is rejected with return value
1; epoch 1700000000 (2023) is written with return value 0. -/
theorem write_fp_epoch_floor_witness :
    ((1000000000 : Int) ≠ -1 ∧ (1000000000 : Int) < 1672527600 ∧
      write_fp 1000000000 0 0 initState = ((initState, []), 1)) ∧
    ((1700000000 : Int) ≠ -1 ∧ (1672527600 : Int) ≤ 1700000000 ∧
      write_fp 1700000000 0 0 initState = ((initState, [HWOp.write 1700000000]), 0)) :=
  ⟨⟨by decide, by decide,
      (write_fp_epoch_floor 1000000000 0 0 initState (by decide)).1 (by decide)⟩,
    ⟨by decide, by decide,
      (write_fp_epoch_floor 1700000000 0 0 initState (by decide)).2 (by decide)⟩⟩

end FPClock
